import Mathlib

/-!
Shallow embedding of `src/netatmo_ws.py` (class `NetatmoWeatherStation`).

Conventions of the embedding:
* Python attribute slots are `Option PyVal`: `Option.none` means the attribute
  does not exist on the object (reading or deleting it raises `AttributeError`),
  `some v` means the attribute is bound to the Python value `v`; in particular
  `some PyVal.none` means the attribute is bound to Python `None`.
* Python floats are modelled as rationals (`Rat`): the module only stores
  timeout values and tests them for truthiness / `isinstance(_, float)`; it
  performs no floating-point arithmetic, so the value-level model is exact for
  every value the claims mention (float NaN, which is truthy in Python, has no
  counterpart here and is not needed by any claim).
* Fallible Python code is modelled with `Except PyError`.
* `urllib.parse.urlsplit` is modelled for ASCII input after CPython 3.9-era
  semantics: removal of tab/CR/LF, scheme extraction (leading alpha, scheme
  characters, lowercased), netloc extraction after `//` up to `/?#`, the
  mismatched-IPv6-bracket `ValueError`, and fragment/query splitting.  The
  non-ASCII NFKC netloc check is omitted.
* `json.loads` is modelled by a fuelled recursive-descent recogniser of the
  Python `json` grammar (objects, arrays, strings with escapes and the
  strict-mode rejection of raw control characters, numbers per the scanner
  regular expression, `true`/`false`/`null` and the Python extensions `NaN`,
  `Infinity`, `-Infinity`); the fuel `4 * length + 8` dominates the number of
  recursive calls, which consume at least one character every three calls.
-/

namespace NetatmoWS

/-- HTTP request types, mirroring the nested enum
`NetatmoWeatherStation.HttpRequestType` (GET/POST/PUT/DELETE). -/
inductive HttpRequestType where
  | GET
  | POST
  | PUT
  | DELETE
deriving DecidableEq, Repr

/-- Python runtime values that can flow through this module. -/
inductive PyVal where
  | none
  | bool (b : Bool)
  | int (n : Int)
  | float (q : Rat)
  | str (s : String)
  | httpRequestType (t : HttpRequestType)
deriving DecidableEq, Repr

/-- Python truthiness (`bool(v)`) for the modelled values.  Enum members are
truthy by default in Python. -/
def truthy : PyVal → Bool
  | PyVal.none => false
  | PyVal.bool b => b
  | PyVal.int n => !(decide (n = 0))
  | PyVal.float q => !(decide (q = 0))
  | PyVal.str s => !(decide (s = ""))
  | PyVal.httpRequestType _ => true

/-- Rendering of `str(type(value))` used in the error messages (quotation
marks around the class name are dropped in the model). -/
def pyTypeName : PyVal → String
  | PyVal.none => "NoneType"
  | PyVal.bool _ => "bool"
  | PyVal.int _ => "int"
  | PyVal.float _ => "float"
  | PyVal.str _ => "str"
  | PyVal.httpRequestType _ => "HttpRequestType"

/-- Exceptions the module can raise.  The three `requests` timeout-ish
exception classes and `RequestException` are kept separate so that the
re-wrapping in `query_api` is structure-preserving. -/
inductive PyError where
  | valueError (msg : String)
  | typeError (msg : String)
  | attributeError (msg : String)
  | httpError (msg : String)
  | connectionError (msg : String)
  | readTimeout (msg : String)
  | timeoutExc (msg : String)
  | requestException (msg : String)
  | runtimeError (msg : String)
  | jsonDecodeError (msg : String)
deriving DecidableEq, Repr

def tabChar : Char := Char.ofNat 9

def lfChar : Char := Char.ofNat 10

def crChar : Char := Char.ofNat 13

def quoteChar : Char := Char.ofNat 34

def backslashChar : Char := Char.ofNat 92

def lbraceChar : Char := Char.ofNat 123

def rbraceChar : Char := Char.ofNat 125

/-- Bytes CPython `urllib.parse` removes from a URL before splitting
(`_UNSAFE_URL_BYTES_TO_REMOVE` = tab, CR, LF). -/
def scrubUrlChars (s : List Char) : List Char :=
  s.filter (fun c => !(c = tabChar || c = crChar || c = lfChar))

/-- Characters allowed in a URL scheme after the leading letter
(`scheme_chars` in CPython). -/
def schemeChar (c : Char) : Bool :=
  c.isAlpha || c.isDigit || c = '+' || c = '-' || c = '.'

/-- Split a character list at the first occurrence of `t`; `Option.none`
when `t` does not occur. -/
def splitAtFirst (t : Char) : List Char → Option (List Char × List Char)
  | [] => Option.none
  | c :: cs =>
    if c = t then some ([], cs)
    else
      match splitAtFirst t cs with
      | some p => some (c :: p.1, p.2)
      | Option.none => Option.none

/-- Scheme extraction of CPython `urlsplit`: the part before the first colon
is a scheme when it is non-empty, starts with a letter and consists of scheme
characters only; the scheme is lowercased, the rest follows the colon. -/
def splitScheme (url : List Char) : List Char × List Char :=
  match splitAtFirst ':' url with
  | some (before, after) =>
    match before with
    | [] => ([], url)
    | c :: cs =>
      if c.isAlpha && (c :: cs).all schemeChar then
        ((c :: cs).map Char.toLower, after)
      else ([], url)
  | Option.none => ([], url)

/-- Netloc extraction (`_splitnetloc`): everything after the leading `//` up
to the first `/`, `?` or `#`. -/
def takeNetloc : List Char → List Char × List Char
  | [] => ([], [])
  | c :: cs =>
    if c = '/' || c = '?' || c = '#' then ([], c :: cs)
    else
      let p := takeNetloc cs
      (c :: p.1, p.2)

/-- Result record of `urllib.parse.urlsplit`. -/
structure SplitResult where
  scheme : String
  netloc : String
  path : String
  query : String
  fragment : String
deriving DecidableEq, Repr

/-- Fragment and query splitting applied to what remains after scheme and
netloc extraction. -/
def mkSplit (scheme netloc rest : List Char) : SplitResult :=
  let fr :=
    match splitAtFirst '#' rest with
    | some p => p
    | Option.none => (rest, [])
  let qu :=
    match splitAtFirst '?' fr.1 with
    | some p => p
    | Option.none => (fr.1, [])
  { scheme := String.mk scheme, netloc := String.mk netloc,
    path := String.mk qu.1, query := String.mk qu.2,
    fragment := String.mk fr.2 }

/-- Model of `urllib.parse.urlsplit` (`urlparse` adds only a params split of
the path, which the setter never looks at).  `Except.error` models the
`ValueError` CPython raises for mismatched IPv6 brackets. -/
def urlsplit (s : String) : Except String SplitResult :=
  let url0 := scrubUrlChars s.toList
  let sp := splitScheme url0
  if sp.2.take 2 = ['/', '/'] then
    let p := takeNetloc (sp.2.drop 2)
    if (p.1.contains '[' && !p.1.contains ']')
        || (p.1.contains ']' && !p.1.contains '[') then
      Except.error "Invalid IPv6 URL"
    else Except.ok (mkSplit sp.1 p.1 p.2)
  else Except.ok (mkSplit sp.1 [] sp.2)

/-- Object state of class `NetatmoWeatherStation`.  The five underscore
fields are the attributes `__init__` creates; `api_username` and
`api_password` are referenced by `query_api` (line 232) but never created by
the class, so they start absent and can only appear through a plain
attribute assignment by the caller. -/
structure NetatmoWeatherStation where
  _api_url : Option PyVal
  _api_timeout : Option PyVal
  _verify_ssl : Option PyVal
  _enable_http_trace : Option PyVal
  _enable_http_debug : Option PyVal
  api_username : Option PyVal
  api_password : Option PyVal
deriving DecidableEq, Repr

/-- Message of the `AttributeError` raised when reading a missing attribute. -/
def noAttrMsg (attr : String) : String :=
  "NetatmoWeatherStation object has no attribute " ++ attr

/-- Getter of property `api_url` (source lines 22-25). -/
def api_url_get (self : NetatmoWeatherStation) : Except PyError PyVal :=
  match self._api_url with
  | some v => Except.ok v
  | Option.none => Except.error (PyError.attributeError (noAttrMsg "_api_url"))

/-- Setter of property `api_url` (source lines 27-44): rejects falsy values,
non-strings, and strings that do not parse into a URL with both scheme and
netloc (a parse-time `ValueError` is caught and re-raised with the same
message). -/
def api_url_set (self : NetatmoWeatherStation) (value : PyVal) :
    Except PyError NetatmoWeatherStation :=
  if truthy value = false then
    Except.error (PyError.valueError "Empty value for api_url not allowed.")
  else
    match value with
    | PyVal.str s =>
      match urlsplit s with
      | Except.ok p =>
        if p.scheme = "" || p.netloc = "" then
          Except.error (PyError.valueError ("Given URL " ++ s ++ " is not valid"))
        else Except.ok { self with _api_url := some (PyVal.str s) }
      | Except.error _ =>
        Except.error (PyError.valueError ("Given URL " ++ s ++ " is not valid"))
    | other =>
      Except.error (PyError.typeError
        ("Given value for api_url is not a string. Type of the value: "
          ++ pyTypeName other ++ "."))

/-- Deleter of property `api_url` (source lines 46-48); `del` of a missing
attribute raises `AttributeError`. -/
def api_url_del (self : NetatmoWeatherStation) :
    Except PyError NetatmoWeatherStation :=
  match self._api_url with
  | some _ => Except.ok { self with _api_url := Option.none }
  | Option.none => Except.error (PyError.attributeError (noAttrMsg "_api_url"))

/-- Getter of property `api_timeout` (source lines 50-53). -/
def api_timeout_get (self : NetatmoWeatherStation) : Except PyError PyVal :=
  match self._api_timeout with
  | some v => Except.ok v
  | Option.none =>
    Except.error (PyError.attributeError (noAttrMsg "_api_timeout"))

/-- Setter of property `api_timeout` (source lines 55-63): rejects falsy
values (`not value`), then anything that is not a float; note that this
accepts every non-zero float, negative ones included, and rejects every
integer. -/
def api_timeout_set (self : NetatmoWeatherStation) (value : PyVal) :
    Except PyError NetatmoWeatherStation :=
  if truthy value = false then
    Except.error (PyError.valueError "Empty value for api_timeout not allowed.")
  else
    match value with
    | PyVal.float q =>
      Except.ok { self with _api_timeout := some (PyVal.float q) }
    | other =>
      Except.error (PyError.typeError
        ("Given value for api_timeout is not a float. Type of the value: "
          ++ pyTypeName other ++ "."))

/-- Deleter of property `api_timeout` (source lines 65-67). -/
def api_timeout_del (self : NetatmoWeatherStation) :
    Except PyError NetatmoWeatherStation :=
  match self._api_timeout with
  | some _ => Except.ok { self with _api_timeout := Option.none }
  | Option.none =>
    Except.error (PyError.attributeError (noAttrMsg "_api_timeout"))

/-- Getter of property `verify_ssl` (source lines 69-72). -/
def verify_ssl_get (self : NetatmoWeatherStation) : Except PyError PyVal :=
  match self._verify_ssl with
  | some v => Except.ok v
  | Option.none =>
    Except.error (PyError.attributeError (noAttrMsg "_verify_ssl"))

/-- Setter of property `verify_ssl` (source lines 74-82): rejects only `None`
(not falsiness, so `False` is accepted), then non-booleans. -/
def verify_ssl_set (self : NetatmoWeatherStation) (value : PyVal) :
    Except PyError NetatmoWeatherStation :=
  if value = PyVal.none then
    Except.error (PyError.valueError "Empty value for verify_ssl not allowed.")
  else
    match value with
    | PyVal.bool b =>
      Except.ok { self with _verify_ssl := some (PyVal.bool b) }
    | other =>
      Except.error (PyError.typeError
        ("Given value for verify_ssl is not a boolean. Type of the value: "
          ++ pyTypeName other ++ "."))

/-- Deleter of property `verify_ssl` (source lines 84-86). -/
def verify_ssl_del (self : NetatmoWeatherStation) :
    Except PyError NetatmoWeatherStation :=
  match self._verify_ssl with
  | some _ => Except.ok { self with _verify_ssl := Option.none }
  | Option.none =>
    Except.error (PyError.attributeError (noAttrMsg "_verify_ssl"))

/-- Getter of property `enable_debug` (source lines 88-91); it reads the
attribute `_enable_http_debug`. -/
def enable_debug_get (self : NetatmoWeatherStation) : Except PyError PyVal :=
  match self._enable_http_debug with
  | some v => Except.ok v
  | Option.none =>
    Except.error (PyError.attributeError (noAttrMsg "_enable_http_debug"))

/-- Setter of property `enable_debug` (source lines 93-101): rejects falsy
values, then non-strings. -/
def enable_debug_set (self : NetatmoWeatherStation) (value : PyVal) :
    Except PyError NetatmoWeatherStation :=
  if truthy value = false then
    Except.error (PyError.valueError "Empty value for enable_debug not allowed.")
  else
    match value with
    | PyVal.str s =>
      Except.ok { self with _enable_http_debug := some (PyVal.str s) }
    | other =>
      Except.error (PyError.typeError
        ("Given value for enable_debug is not a string. Type of the value: "
          ++ pyTypeName other ++ "."))

/-- Deleter of property `enable_debug` (source lines 103-105). -/
def enable_debug_del (self : NetatmoWeatherStation) :
    Except PyError NetatmoWeatherStation :=
  match self._enable_http_debug with
  | some _ => Except.ok { self with _enable_http_debug := Option.none }
  | Option.none =>
    Except.error (PyError.attributeError (noAttrMsg "_enable_http_debug"))

/-- Getter of property `enable_http_trace` (source lines 107-110). -/
def enable_http_trace_get (self : NetatmoWeatherStation) :
    Except PyError PyVal :=
  match self._enable_http_trace with
  | some v => Except.ok v
  | Option.none =>
    Except.error (PyError.attributeError (noAttrMsg "_enable_http_trace"))

/-- Setter of property `enable_http_trace` (source lines 112-122): `None` is
stored as `False`, non-booleans are rejected, booleans are stored. -/
def enable_http_trace_set (self : NetatmoWeatherStation) (value : PyVal) :
    Except PyError NetatmoWeatherStation :=
  if value = PyVal.none then
    Except.ok { self with _enable_http_trace := some (PyVal.bool false) }
  else
    match value with
    | PyVal.bool b =>
      Except.ok { self with _enable_http_trace := some (PyVal.bool b) }
    | other =>
      Except.error (PyError.typeError
        ("Given value for property enable_http_trace is not a boolean. Type of the value: "
          ++ pyTypeName other ++ "."))

/-- Deleter of property `enable_http_trace` (source lines 124-126). -/
def enable_http_trace_del (self : NetatmoWeatherStation) :
    Except PyError NetatmoWeatherStation :=
  match self._enable_http_trace with
  | some _ => Except.ok { self with _enable_http_trace := Option.none }
  | Option.none =>
    Except.error (PyError.attributeError (noAttrMsg "_enable_http_trace"))

/-- Keyword arguments accepted by `__init__`; `Option.none` means the keyword
was not supplied (then `kwargs.get` returns Python `None`). -/
structure Kwargs where
  api_url : Option PyVal
  api_timeout : Option PyVal
  verify_ssl : Option PyVal
  enable_http_trace : Option PyVal
  _enable_http_debug : Option PyVal
deriving DecidableEq, Repr

/-- Kwargs with no keyword supplied. -/
def emptyKwargs : Kwargs :=
  ⟨Option.none, Option.none, Option.none, Option.none, Option.none⟩

/-- Object state right after the five attribute resets at the top of
`__init__` (source lines 147-152): every configuration attribute is bound to
Python `None`, the credential attributes do not exist. -/
def initAttrs : NetatmoWeatherStation :=
  ⟨some PyVal.none, some PyVal.none, some PyVal.none, some PyVal.none,
    some PyVal.none, Option.none, Option.none⟩

/-- Model of `__init__` (source lines 146-167).  Note line 158 of the source:
a truthy `api_timeout` keyword is routed through the `api_url` property
setter (`self.api_url = kwargs.get('api_timeout')`), and line 167 assigns the
`_enable_http_debug` keyword to the attribute directly, bypassing the
`enable_debug` setter. -/
def netatmo_init (k : Kwargs) : Except PyError NetatmoWeatherStation :=
  (if truthy (k.api_url.getD PyVal.none) then
      api_url_set initAttrs (k.api_url.getD PyVal.none)
    else Except.ok initAttrs).bind fun s1 =>
  (if truthy (k.api_timeout.getD PyVal.none) then
      api_url_set s1 (k.api_timeout.getD PyVal.none)
    else Except.ok s1).bind fun s2 =>
  (if truthy (k.verify_ssl.getD PyVal.none) then
      verify_ssl_set s2 (k.verify_ssl.getD PyVal.none)
    else Except.ok s2).bind fun s3 =>
  (if truthy (k.enable_http_trace.getD PyVal.none) then
      enable_http_trace_set s3 (k.enable_http_trace.getD PyVal.none)
    else Except.ok s3).bind fun s4 =>
  if truthy (k._enable_http_debug.getD PyVal.none) then
    Except.ok { s4 with
      _enable_http_debug := some (k._enable_http_debug.getD PyVal.none) }
  else Except.ok s4

/-- Concrete syntax tree of a JSON document as accepted by Python
`json.loads`; string and number lexemes are kept raw (escapes undecoded),
which is faithful up to token decoding and enough for every claim. -/
inductive JsonVal where
  | null
  | bool (b : Bool)
  | num (lexeme : String)
  | nan
  | infinity (neg : Bool)
  | str (raw : String)
  | arr (items : List JsonVal)
  | obj (fields : List (String × JsonVal))
deriving Repr

/-- JSON whitespace (space, tab, LF, CR). -/
def isJsonWs (c : Char) : Bool :=
  c = ' ' || c = tabChar || c = lfChar || c = crChar

/-- Drop leading JSON whitespace. -/
def skipWs : List Char → List Char
  | [] => []
  | c :: cs => if isJsonWs c then skipWs cs else c :: cs

/-- Hexadecimal digit, as accepted in a `u` escape. -/
def hexDigit (c : Char) : Bool :=
  c.isDigit || ('a' ≤ c && c ≤ 'f') || ('A' ≤ c && c ≤ 'F')

/-- Body of a JSON string after the opening quote, up to and including the
closing quote; returns the raw contents and the rest.  Mirrors the strict
scanner: the eight single-character escapes and `u` + 4 hex digits are the
only escapes, and raw control characters (below 0x20) are rejected. -/
def parseJsonStringBody : List Char → Option (List Char × List Char)
  | [] => Option.none
  | c :: cs =>
    if c = quoteChar then some ([], cs)
    else if c = backslashChar then
      match cs with
      | [] => Option.none
      | e :: cs2 =>
        if e = quoteChar || e = backslashChar || e = '/' || e = 'b' || e = 'f'
            || e = 'n' || e = 'r' || e = 't' then
          match parseJsonStringBody cs2 with
          | some p => some (c :: e :: p.1, p.2)
          | Option.none => Option.none
        else if e = 'u' then
          match cs2 with
          | h1 :: h2 :: h3 :: h4 :: cs3 =>
            if hexDigit h1 && hexDigit h2 && hexDigit h3 && hexDigit h4 then
              match parseJsonStringBody cs3 with
              | some p => some (c :: e :: h1 :: h2 :: h3 :: h4 :: p.1, p.2)
              | Option.none => Option.none
            else Option.none
          | _ => Option.none
        else Option.none
    else if c.toNat < 32 then Option.none
    else
      match parseJsonStringBody cs with
      | some p => some (c :: p.1, p.2)
      | Option.none => Option.none

/-- Longest digit prefix and the rest. -/
def takeDigits : List Char → List Char × List Char
  | [] => ([], [])
  | c :: cs =>
    if c.isDigit then
      let p := takeDigits cs
      (c :: p.1, p.2)
    else ([], c :: cs)

/-- Integer part of the JSON number grammar: `0` or a nonzero digit followed
by digits. -/
def parseJsonIntPart : List Char → Option (List Char × List Char)
  | [] => Option.none
  | c :: cs =>
    if c = '0' then some ([c], cs)
    else if c.isDigit then
      let p := takeDigits cs
      some (c :: p.1, p.2)
    else Option.none

/-- Optional fraction part `.[0-9]+`; when it does not match, nothing is
consumed (as with the optional regex group of the scanner). -/
def parseJsonFrac : List Char → List Char × List Char
  | '.' :: d :: cs =>
    if d.isDigit then
      let p := takeDigits (d :: cs)
      ('.' :: p.1, p.2)
    else ([], '.' :: d :: cs)
  | s => ([], s)

/-- Optional exponent part `[eE][+-]?[0-9]+`; when it does not match, nothing
is consumed. -/
def parseJsonExp (s : List Char) : List Char × List Char :=
  match s with
  | e :: rest =>
    if e = 'e' || e = 'E' then
      match rest with
      | sgn :: rest2 =>
        if sgn = '+' || sgn = '-' then
          match rest2 with
          | d :: _ =>
            if d.isDigit then
              let p := takeDigits rest2
              (e :: sgn :: p.1, p.2)
            else ([], s)
          | [] => ([], s)
        else if sgn.isDigit then
          let p := takeDigits rest
          (e :: p.1, p.2)
        else ([], s)
      | [] => ([], s)
    else ([], s)
  | [] => ([], s)

/-- JSON number per the scanner regular expression
`-?(0|[1-9][0-9]*)(.[0-9]+)?([eE][+-]?[0-9]+)?`; returns the lexeme and the
rest. -/
def parseJsonNumber (s : List Char) : Option (List Char × List Char) :=
  let p0 :=
    match s with
    | c :: cs => if c = '-' then (([c] : List Char), cs) else (([] : List Char), s)
    | [] => (([] : List Char), s)
  match parseJsonIntPart p0.2 with
  | some (ip, r1) =>
    let f := parseJsonFrac r1
    let e := parseJsonExp f.2
    some (p0.1 ++ ip ++ f.1 ++ e.1, e.2)
  | Option.none => Option.none

mutual

/-- One JSON value at the head of the input (no leading whitespace); the fuel
dominates the recursion depth, see the module docstring. -/
def parseJsonValue : Nat → List Char → Option (JsonVal × List Char)
  | 0, _ => Option.none
  | Nat.succ f, s =>
    match s with
    | [] => Option.none
    | c :: cs =>
      if c = quoteChar then
        match parseJsonStringBody cs with
        | some p => some (JsonVal.str (String.mk p.1), p.2)
        | Option.none => Option.none
      else if c = lbraceChar then
        parseJsonObjBody f (skipWs cs)
      else if c = '[' then
        parseJsonArrBody f (skipWs cs)
      else
        match s with
        | 'n' :: 'u' :: 'l' :: 'l' :: r => some (JsonVal.null, r)
        | 't' :: 'r' :: 'u' :: 'e' :: r => some (JsonVal.bool true, r)
        | 'f' :: 'a' :: 'l' :: 's' :: 'e' :: r => some (JsonVal.bool false, r)
        | 'N' :: 'a' :: 'N' :: r => some (JsonVal.nan, r)
        | 'I' :: 'n' :: 'f' :: 'i' :: 'n' :: 'i' :: 't' :: 'y' :: r =>
          some (JsonVal.infinity false, r)
        | '-' :: 'I' :: 'n' :: 'f' :: 'i' :: 'n' :: 'i' :: 't' :: 'y' :: r =>
          some (JsonVal.infinity true, r)
        | _ =>
          match parseJsonNumber s with
          | some p => some (JsonVal.num (String.mk p.1), p.2)
          | Option.none => Option.none

/-- Object body after the opening brace and whitespace: empty object or a
list of members. -/
def parseJsonObjBody : Nat → List Char → Option (JsonVal × List Char)
  | 0, _ => Option.none
  | Nat.succ f, s =>
    match s with
    | [] => Option.none
    | c :: cs =>
      if c = rbraceChar then some (JsonVal.obj [], cs)
      else
        match parseJsonObjItems f (c :: cs) with
        | some p => some (JsonVal.obj p.1, p.2)
        | Option.none => Option.none

/-- Non-empty member list of an object: key string, colon, value, then a
comma and more members or the closing brace. -/
def parseJsonObjItems : Nat → List Char →
    Option (List (String × JsonVal) × List Char)
  | 0, _ => Option.none
  | Nat.succ f, s =>
    match s with
    | [] => Option.none
    | c :: cs =>
      if c = quoteChar then
        match parseJsonStringBody cs with
        | some (key, r1) =>
          match skipWs r1 with
          | ':' :: r2 =>
            match parseJsonValue f (skipWs r2) with
            | some (v, r3) =>
              match skipWs r3 with
              | ',' :: r4 =>
                match parseJsonObjItems f (skipWs r4) with
                | some (kvs, r5) => some ((String.mk key, v) :: kvs, r5)
                | Option.none => Option.none
              | d :: r4 =>
                if d = rbraceChar then some ([(String.mk key, v)], r4)
                else Option.none
              | [] => Option.none
            | Option.none => Option.none
          | _ => Option.none
        | Option.none => Option.none
      else Option.none

/-- Array body after the opening bracket and whitespace: empty array or a
list of items. -/
def parseJsonArrBody : Nat → List Char → Option (JsonVal × List Char)
  | 0, _ => Option.none
  | Nat.succ f, s =>
    match s with
    | [] => Option.none
    | c :: cs =>
      if c = ']' then some (JsonVal.arr [], cs)
      else
        match parseJsonArrItems f (c :: cs) with
        | some p => some (JsonVal.arr p.1, p.2)
        | Option.none => Option.none

/-- Non-empty item list of an array: a value, then a comma and more items or
the closing bracket. -/
def parseJsonArrItems : Nat → List Char → Option (List JsonVal × List Char)
  | 0, _ => Option.none
  | Nat.succ f, s =>
    match parseJsonValue f s with
    | some (v, r1) =>
      match skipWs r1 with
      | ',' :: r2 =>
        match parseJsonArrItems f (skipWs r2) with
        | some (xs, r3) => some (v :: xs, r3)
        | Option.none => Option.none
      | ']' :: r2 => some ([v], r2)
      | _ => Option.none
    | Option.none => Option.none

end

/-- Model of `json.loads`: leading whitespace, one value, trailing
whitespace, nothing else (`Extra data` otherwise). -/
def json_loads (s : String) : Option JsonVal :=
  match parseJsonValue (4 * s.toList.length + 8) (skipWs s.toList) with
  | some (v, rest) => if skipWs rest = [] then some v else Option.none
  | Option.none => Option.none

/-- Static method `_is_json` (source lines 136-144): `json.loads` succeeds. -/
def _is_json (s : String) : Bool :=
  (json_loads s).isSome

/-- The part of a `requests.Response` the module looks at. -/
structure HttpResponse where
  status_code : Nat
  reason : String
  body : String
deriving DecidableEq, Repr

/-- Outcome of one transport attempt by the `requests` library: a final
response (after any redirect handling) or one of the exception classes the
source catches. -/
inductive TransportResult where
  | response (r : HttpResponse)
  | connectionError (msg : String)
  | readTimeout (msg : String)
  | timeoutExc (msg : String)
  | requestException (msg : String)
deriving DecidableEq, Repr

/-- A transport oracle standing for the `requests` verb functions: it is
given the method, the full URL and the optional body. -/
def Transport : Type :=
  HttpRequestType → String → Option String → TransportResult

/-- Model of `requests.Response.raise_for_status`: an `HTTPError` whose
message embeds the status code for codes 400-499 (Client Error) and 500-599
(Server Error), nothing for any other status. -/
def raise_for_status (r : HttpResponse) (url : String) : Option String :=
  if 400 ≤ r.status_code ∧ r.status_code < 500 then
    some (toString r.status_code ++ " Client Error: " ++ r.reason
      ++ " for url: " ++ url)
  else if 500 ≤ r.status_code ∧ r.status_code < 600 then
    some (toString r.status_code ++ " Server Error: " ++ r.reason
      ++ " for url: " ++ url)
  else Option.none

/-- Model of `requests.Response.ok`: true exactly when `raise_for_status`
does not raise. -/
def response_ok (r : HttpResponse) (url : String) : Bool :=
  (raise_for_status r url).isNone

/-- Model of `requests.Response.json()`: `json.loads` of the body; a decode
failure raises a `ValueError` (modelled as `jsonDecodeError`), which in the
requests versions contemporary with this module is not a
`requests.exceptions` class and is therefore not caught by the source's
`except` clauses. -/
def response_json (r : HttpResponse) : Except PyError JsonVal :=
  match json_loads r.body with
  | some v => Except.ok v
  | Option.none => Except.error (PyError.jsonDecodeError "Expecting value")

/-- Value of `http_request_type.name`. -/
def methodName : HttpRequestType → String
  | HttpRequestType.GET => "GET"
  | HttpRequestType.POST => "POST"
  | HttpRequestType.PUT => "PUT"
  | HttpRequestType.DELETE => "DELETE"

/-- Tail of `query_api` once a response arrived (source lines 268 and
291-299): `raise_for_status`, whose `HTTPError` is caught on line 269 and
re-raised with added context; the `not response.ok` `RuntimeError` of line
294 (unreachable, because `ok` is true exactly when `raise_for_status` did
not raise); finally `return response.json()`. -/
def query_status (t : HttpRequestType) (url : String) (r : HttpResponse) :
    Except PyError JsonVal :=
  match raise_for_status r url with
  | some m =>
    Except.error (PyError.httpError
      ("The HTTP " ++ methodName t
        ++ " request failed with an HTTPError. Following the complete error: "
        ++ m))
  | Option.none =>
    if response_ok r url = false then
      Except.error (PyError.runtimeError
        ("Last " ++ methodName t
          ++ " request failed. Request returned with HTTP code "
          ++ toString r.status_code))
    else response_json r

/-- Response handling of `query_api` (source lines 265-268): the optional
http-trace dump evaluates `response.json()` first (its decode error
propagates uncaught), then the status handling follows. -/
def query_handle_response (self : NetatmoWeatherStation)
    (t : HttpRequestType) (url : String) (r : HttpResponse) :
    Except PyError JsonVal :=
  match self._enable_http_trace with
  | Option.none =>
    Except.error (PyError.attributeError (noAttrMsg "_enable_http_trace"))
  | some trv =>
    if truthy trv then
      match response_json r with
      | Except.error e => Except.error e
      | Except.ok _ => query_status t url r
    else query_status t url r

/-- Dispatch block of `query_api` (source lines 234-289): the call
`requests.<verb>(self.api_url + location, ...)` first evaluates the URL
concatenation (an `AttributeError` if `_api_url` was deleted, a `TypeError`
if `api_url` holds a non-string — such as the `None` reset by `__init__`),
then reads `verify_ssl` and `api_timeout` through their getters, then
performs the request; transport-level failures are re-wrapped by the
`except` clauses of lines 269-289 (the `readTimeout` re-wrap drops the
rendering of `self.api_timeout` from the message).  The
`else: raise ValueError(... not supported ...)` branch of line 262 is
unreachable: the four enum members are matched exhaustively.  The first
component of the result lists the requests actually handed to the
transport. -/
def query_request (self : NetatmoWeatherStation) (transport : Transport)
    (t : HttpRequestType) (loc : String) (data : Option String) :
    List (HttpRequestType × String) × Except PyError JsonVal :=
  match self._api_url with
  | Option.none =>
    ([], Except.error (PyError.attributeError (noAttrMsg "_api_url")))
  | some u =>
    match u with
    | PyVal.str us =>
      match self._verify_ssl with
      | Option.none =>
        ([], Except.error (PyError.attributeError (noAttrMsg "_verify_ssl")))
      | some _ =>
        match self._api_timeout with
        | Option.none =>
          ([], Except.error (PyError.attributeError (noAttrMsg "_api_timeout")))
        | some _ =>
          match transport t (us ++ loc) data with
          | TransportResult.response r =>
            ([(t, us ++ loc)], query_handle_response self t (us ++ loc) r)
          | TransportResult.connectionError m =>
            ([(t, us ++ loc)], Except.error (PyError.connectionError
              ("Unable to connect to the configured API " ++ us
                ++ ". Following the complete error: " ++ m)))
          | TransportResult.readTimeout m =>
            ([(t, us ++ loc)], Except.error (PyError.readTimeout
              ("The HTTP " ++ methodName t
                ++ " request timed out. No data was retrieved from the Satellite server. Following the complete error: "
                ++ m)))
          | TransportResult.timeoutExc m =>
            ([(t, us ++ loc)], Except.error (PyError.timeoutExc
              ("Timeout of the HTTP " ++ methodName t
                ++ " request has been reached. Following the complete error: "
                ++ m)))
          | TransportResult.requestException m =>
            ([(t, us ++ loc)], Except.error (PyError.requestException
              ("The HTTP " ++ methodName t
                ++ " request failed. Following the complete error: " ++ m)))
    | other =>
      ([], Except.error (PyError.typeError
        ("unsupported operand types for +: " ++ pyTypeName other ++ " and str")))

/-- Credential read of `query_api` (source line 232):
`auth = (self.api_username, self.api_password)` — two plain attribute reads
of attributes the class never creates. -/
def query_auth (self : NetatmoWeatherStation) (transport : Transport)
    (t : HttpRequestType) (loc : String) (data : Option String) :
    List (HttpRequestType × String) × Except PyError JsonVal :=
  match self.api_username with
  | Option.none =>
    ([], Except.error (PyError.attributeError (noAttrMsg "api_username")))
  | some _ =>
    match self.api_password with
    | Option.none =>
      ([], Except.error (PyError.attributeError (noAttrMsg "api_password")))
    | some _ => query_request self transport t loc data

/-- Debug-logging block of `query_api` (source lines 223-229): both branches
of `if data is not None` read `self.enable_debug`, and when it is truthy the
log f-string evaluates `self.api_url + location` (a `TypeError` when
`api_url` holds a non-string; an `AttributeError` when either attribute was
deleted). -/
def query_dispatch (self : NetatmoWeatherStation) (transport : Transport)
    (t : HttpRequestType) (loc : String) (data : Option String) :
    List (HttpRequestType × String) × Except PyError JsonVal :=
  match self._enable_http_debug with
  | Option.none =>
    ([], Except.error (PyError.attributeError (noAttrMsg "_enable_http_debug")))
  | some dbg =>
    if truthy dbg then
      match self._api_url with
      | Option.none =>
        ([], Except.error (PyError.attributeError (noAttrMsg "_api_url")))
      | some (PyVal.str _) => query_auth self transport t loc data
      | some other =>
        ([], Except.error (PyError.typeError
          ("unsupported operand types for +: " ++ pyTypeName other
            ++ " and str")))
    else query_auth self transport t loc data

/-- Method `query_api` (source lines 169-299).  The argument validation of
lines 200-221 runs first: method presence then type, location presence then
type, then — only when a body is given — body type then JSON validity; each
failure raises at once with no transport involved.  The first component of
the result lists the requests handed to the transport (empty iff no network
activity happened). -/
def query_api (self : NetatmoWeatherStation) (transport : Transport)
    (http_request_type : PyVal) (location : PyVal) (data : PyVal) :
    List (HttpRequestType × String) × Except PyError JsonVal :=
  if truthy http_request_type = false then
    ([], Except.error (PyError.valueError
      "Given value for the first argument (http_request_type) is empty (or None)."))
  else
    match http_request_type with
    | PyVal.httpRequestType t =>
      if truthy location = false then
        ([], Except.error (PyError.valueError
          "Given value for the second argument (location) is empty (or None)."))
      else
        match location with
        | PyVal.str loc =>
          match data with
          | PyVal.none => query_dispatch self transport t loc Option.none
          | PyVal.str d =>
            if _is_json d = false then
              ([], Except.error (PyError.valueError
                ("Given value for the fifth argument (data) is not a JSON formatted string. Following the given value: "
                  ++ d)))
            else query_dispatch self transport t loc (some d)
          | other =>
            ([], Except.error (PyError.typeError
              ("Given value for the third argument (data) is not a string. Type of value is "
                ++ pyTypeName other ++ ".")))
        | other =>
          ([], Except.error (PyError.typeError
            ("Given value for the second argument (location) is not a string. Type of value is "
              ++ pyTypeName other ++ ".")))
    | other =>
      ([], Except.error (PyError.typeError
        ("Given value for the first argument (http_request_type) is not an instance of HttpRequestType. Type of value is "
          ++ pyTypeName other ++ ".")))

/-- A transport that always answers with the same response; used to
instantiate claims about responses. -/
def constTransport (r : HttpResponse) : Transport :=
  fun _ _ _ => TransportResult.response r

/-- A fixed benign transport (status 200, JSON body). -/
def nullTransport : Transport :=
  constTransport ⟨200, "OK", "1"⟩

/-- Boolean prefix test on character lists. -/
def listPrefixEq : List Char → List Char → Bool
  | [], _ => true
  | _ :: _, [] => false
  | a :: as, b :: bs => a == b && listPrefixEq as bs

/-- Boolean substring test on character lists. -/
def listFindSub (n : List Char) : List Char → Bool
  | [] => listPrefixEq n []
  | c :: cs => listPrefixEq n (c :: cs) || listFindSub n cs

/-- The Python `needle in hay` test on strings. -/
def strContains (hay needle : String) : Bool :=
  listFindSub needle.data hay.data

/-- State invariant established by `__init__`: the five configuration
attributes exist, the credential attributes do not, and `_api_timeout` is
still the `None` reset (the constructor never routes a value into it). -/
def StationInv (s : NetatmoWeatherStation) : Prop :=
  s.api_username = Option.none ∧ s.api_password = Option.none ∧
  s._api_timeout = some PyVal.none ∧
  s._api_url.isSome = true ∧ s._verify_ssl.isSome = true ∧
  s._enable_http_trace.isSome = true ∧ s._enable_http_debug.isSome = true

/-- Kwargs supplying only a truthy `_enable_http_debug` keyword. -/
def dbgKwargs : Kwargs :=
  ⟨Option.none, Option.none, Option.none, Option.none, some (PyVal.str "x")⟩

/-- The station `__init__` builds from `dbgKwargs`. -/
def dbgStation : NetatmoWeatherStation :=
  { initAttrs with _enable_http_debug := some (PyVal.str "x") }

/-- Kwargs supplying only the `api_timeout` keyword. -/
def timeoutKwargs (v : PyVal) : Kwargs :=
  ⟨Option.none, some v, Option.none, Option.none, Option.none⟩

/-- A station whose caller assigned the (otherwise undefined) credential
attributes as plain attributes and set a valid base URL, so transport is
reachable. -/
def credStation : NetatmoWeatherStation :=
  ⟨some (PyVal.str "http://h/"), some PyVal.none, some PyVal.none,
    some PyVal.none, some PyVal.none, some (PyVal.str "u"),
    some (PyVal.str "p")⟩

theorem except_bind_ok {ε α β : Type} (x : Except ε α) (f : α → Except ε β)
    (b : β) (h : x.bind f = Except.ok b) :
    ∃ a, x = Except.ok a ∧ f a = Except.ok b := by
  cases x with
  | error e => simp [Except.bind] at h
  | ok a => exact ⟨a, rfl, by simpa [Except.bind] using h⟩

theorem api_url_set_ok (s s2 : NetatmoWeatherStation) (v : PyVal)
    (h : api_url_set s v = Except.ok s2) :
    ∃ u p, v = PyVal.str u ∧ urlsplit u = Except.ok p ∧
      p.scheme ≠ "" ∧ p.netloc ≠ "" ∧
      s2 = { s with _api_url := some (PyVal.str u) } := by
  unfold api_url_set at h
  split at h
  · cases h
  · split at h
    · rename_i u _hneg
      split at h
      · rename_i p hp
        split at h
        · cases h
        · rename_i hcond
          cases h
          refine ⟨u, p, rfl, hp, ?_, ?_, rfl⟩ <;> simp at hcond <;> tauto
      · cases h
    · cases h

theorem verify_ssl_set_ok (s s2 : NetatmoWeatherStation) (v : PyVal)
    (h : verify_ssl_set s v = Except.ok s2) :
    ∃ b, v = PyVal.bool b ∧ s2 = { s with _verify_ssl := some (PyVal.bool b) } := by
  unfold verify_ssl_set at h
  split at h
  · cases h
  · split at h
    · rename_i b _hneg
      cases h
      exact ⟨b, rfl, rfl⟩
    · cases h

theorem enable_http_trace_set_ok (s s2 : NetatmoWeatherStation) (v : PyVal)
    (h : enable_http_trace_set s v = Except.ok s2) :
    ∃ b, s2 = { s with _enable_http_trace := some (PyVal.bool b) } := by
  unfold enable_http_trace_set at h
  split at h
  · cases h
    exact ⟨false, rfl⟩
  · split at h
    · rename_i b _hneg
      cases h
      exact ⟨b, rfl⟩
    · cases h

theorem initAttrs_inv : StationInv initAttrs :=
  ⟨rfl, rfl, rfl, rfl, rfl, rfl, rfl⟩

theorem api_url_set_inv (s s2 : NetatmoWeatherStation) (v : PyVal)
    (hs : StationInv s) (h : api_url_set s v = Except.ok s2) : StationInv s2 := by
  obtain ⟨u, p, _, _, _, _, rfl⟩ := api_url_set_ok s s2 v h
  obtain ⟨h1, h2, h3, _, h5, h6, h7⟩ := hs
  exact ⟨h1, h2, h3, rfl, h5, h6, h7⟩

theorem verify_ssl_set_inv (s s2 : NetatmoWeatherStation) (v : PyVal)
    (hs : StationInv s) (h : verify_ssl_set s v = Except.ok s2) : StationInv s2 := by
  obtain ⟨b, _, rfl⟩ := verify_ssl_set_ok s s2 v h
  obtain ⟨h1, h2, h3, h4, _, h6, h7⟩ := hs
  exact ⟨h1, h2, h3, h4, rfl, h6, h7⟩

theorem enable_http_trace_set_inv (s s2 : NetatmoWeatherStation) (v : PyVal)
    (hs : StationInv s) (h : enable_http_trace_set s v = Except.ok s2) :
    StationInv s2 := by
  obtain ⟨b, rfl⟩ := enable_http_trace_set_ok s s2 v h
  obtain ⟨h1, h2, h3, h4, h5, _, h7⟩ := hs
  exact ⟨h1, h2, h3, h4, h5, rfl, h7⟩

theorem netatmo_init_inv (k : Kwargs) (s : NetatmoWeatherStation)
    (h : netatmo_init k = Except.ok s) : StationInv s := by
  unfold netatmo_init at h
  obtain ⟨s1, h1, h⟩ := except_bind_ok _ _ _ h
  obtain ⟨s2, h2, h⟩ := except_bind_ok _ _ _ h
  obtain ⟨s3, h3, h⟩ := except_bind_ok _ _ _ h
  obtain ⟨s4, h4, h⟩ := except_bind_ok _ _ _ h
  have i1 : StationInv s1 := by
    split at h1
    · exact api_url_set_inv _ _ _ initAttrs_inv h1
    · cases h1
      exact initAttrs_inv
  have i2 : StationInv s2 := by
    split at h2
    · exact api_url_set_inv _ _ _ i1 h2
    · cases h2
      exact i1
  have i3 : StationInv s3 := by
    split at h3
    · exact verify_ssl_set_inv _ _ _ i2 h3
    · cases h3
      exact i2
  have i4 : StationInv s4 := by
    split at h4
    · exact enable_http_trace_set_inv _ _ _ i3 h4
    · cases h4
      exact i3
  split at h
  · cases h
    obtain ⟨g1, g2, g3, g4, g5, g6, _⟩ := i4
    exact ⟨g1, g2, g3, g4, g5, g6, rfl⟩
  · cases h
    exact i4

theorem api_url_set_keeps_trace (s s2 : NetatmoWeatherStation) (v : PyVal)
    (h : api_url_set s v = Except.ok s2) :
    s2._enable_http_trace = s._enable_http_trace := by
  obtain ⟨u, p, _, _, _, _, rfl⟩ := api_url_set_ok s s2 v h
  rfl

theorem verify_ssl_set_keeps_trace (s s2 : NetatmoWeatherStation) (v : PyVal)
    (h : verify_ssl_set s v = Except.ok s2) :
    s2._enable_http_trace = s._enable_http_trace := by
  obtain ⟨b, _, rfl⟩ := verify_ssl_set_ok s s2 v h
  rfl

theorem netatmo_init_trace (k : Kwargs) (s : NetatmoWeatherStation)
    (h : netatmo_init k = Except.ok s)
    (htr : truthy (k.enable_http_trace.getD PyVal.none) = false) :
    s._enable_http_trace = some PyVal.none := by
  unfold netatmo_init at h
  obtain ⟨s1, h1, h⟩ := except_bind_ok _ _ _ h
  obtain ⟨s2, h2, h⟩ := except_bind_ok _ _ _ h
  obtain ⟨s3, h3, h⟩ := except_bind_ok _ _ _ h
  obtain ⟨s4, h4, h⟩ := except_bind_ok _ _ _ h
  have t1 : s1._enable_http_trace = some PyVal.none := by
    split at h1
    · rw [api_url_set_keeps_trace _ _ _ h1]
      rfl
    · cases h1
      rfl
  have t2 : s2._enable_http_trace = some PyVal.none := by
    split at h2
    · rw [api_url_set_keeps_trace _ _ _ h2]
      exact t1
    · cases h2
      exact t1
  have t3 : s3._enable_http_trace = some PyVal.none := by
    split at h3
    · rw [verify_ssl_set_keeps_trace _ _ _ h3]
      exact t2
    · cases h3
      exact t2
  have t4 : s4._enable_http_trace = some PyVal.none := by
    rw [htr] at h4
    simp only [Bool.false_eq_true, if_false] at h4
    cases h4
    exact t3
  split at h
  · cases h
    exact t4
  · cases h
    exact t4

theorem strData_append (a b : String) : (a ++ b).data = a.data ++ b.data := by
  cases a
  cases b
  rfl

theorem listPrefixEq_self_append (n ys : List Char) :
    listPrefixEq n (n ++ ys) = true := by
  induction n with
  | nil => rfl
  | cons c cs ih => simp [listPrefixEq, ih]

theorem listFindSub_of_prefix (n l : List Char) (h : listPrefixEq n l = true) :
    listFindSub n l = true := by
  cases l with
  | nil => exact h
  | cons c cs => simp [listFindSub, h]

theorem listFindSub_append_left (n xs l : List Char)
    (h : listFindSub n l = true) : listFindSub n (xs ++ l) = true := by
  induction xs with
  | nil => simpa using h
  | cons c cs ih => simp [listFindSub, ih]

theorem listFindSub_self_append (n ys : List Char) :
    listFindSub n (n ++ ys) = true :=
  listFindSub_of_prefix n (n ++ ys) (listPrefixEq_self_append n ys)

theorem init_timeout_routes (v : PyVal) (hv : truthy v = true) :
    netatmo_init (timeoutKwargs v) = api_url_set initAttrs v := by
  unfold netatmo_init timeoutKwargs
  cases h : api_url_set initAttrs v <;>
    simp [Option.getD, show truthy PyVal.none = false from rfl, hv, h, Except.bind]

theorem query_dispatch_noauth (s : NetatmoWeatherStation) (tr : Transport)
    (t : HttpRequestType) (l : String) (dd : Option String) (dv : PyVal)
    (hun : s.api_username = Option.none)
    (hdv : s._enable_http_debug = some dv)
    (hok : truthy dv = false ∨ ∃ u, s._api_url = some (PyVal.str u)) :
    query_dispatch s tr t l dd =
      ([], Except.error (PyError.attributeError (noAttrMsg "api_username"))) := by
  have hauth : query_auth s tr t l dd =
      ([], Except.error (PyError.attributeError (noAttrMsg "api_username"))) := by
    unfold query_auth
    rw [hun]
  unfold query_dispatch
  rw [hdv]
  rcases hok with hf | ⟨u, hu⟩
  · simp [hf, hauth]
  · cases hdb : truthy dv
    · simp [hdb, hauth]
    · simp [hdb, hu, hauth]

/-- C2 counterexample: the claim states every non-positive value is rejected
and every positive numeric value round-trips; the code accepts the negative
float -5.0 (storing it) and rejects the positive integer 5 with a
TypeError. -/
theorem C2_counterexample :
    api_timeout_set initAttrs (PyVal.float (-5)) =
      Except.ok { initAttrs with _api_timeout := some (PyVal.float (-5)) } ∧
    ((-5 : Rat) < 0) ∧
    api_timeout_set initAttrs (PyVal.int 5) =
      Except.error (PyError.typeError
        "Given value for api_timeout is not a float. Type of the value: int.") :=
  ⟨rfl, by decide, rfl⟩

/-- C2 (amended): the apiTimeout setter rejects zero, None and every
non-float value (positive integers included) and accepts every non-zero
float — negative floats included — which then round-trips exactly through
the getter. -/
theorem C2_api_timeout_amended (s : NetatmoWeatherStation) (q : Rat) (v : PyVal)
    (hq : q ≠ 0)
    (hv : (∀ r : Rat, v ≠ PyVal.float r) ∨ v = PyVal.float 0) :
    (api_timeout_set s (PyVal.float q) =
        Except.ok { s with _api_timeout := some (PyVal.float q) } ∧
      api_timeout_get { s with _api_timeout := some (PyVal.float q) } =
        Except.ok (PyVal.float q)) ∧
    (∃ e, api_timeout_set s v = Except.error e) := by
  constructor
  · constructor
    · unfold api_timeout_set
      rw [show truthy (PyVal.float q) = true by simp [truthy, hq]]
      rfl
    · rfl
  · rcases hv with hnf | rfl
    · cases v with
      | none => exact ⟨_, rfl⟩
      | bool b => cases b <;> exact ⟨_, rfl⟩
      | int n =>
        by_cases hn : n = 0
        · subst hn
          exact ⟨_, rfl⟩
        · refine ⟨PyError.typeError
            ("Given value for api_timeout is not a float. Type of the value: "
              ++ pyTypeName (PyVal.int n) ++ "."), ?_⟩
          unfold api_timeout_set
          rw [show truthy (PyVal.int n) = true by simp [truthy, hn]]
          rfl
      | float r => exact absurd rfl (hnf r)
      | str w =>
        by_cases hw : w = ""
        · subst hw
          exact ⟨_, rfl⟩
        · refine ⟨PyError.typeError
            ("Given value for api_timeout is not a float. Type of the value: "
              ++ pyTypeName (PyVal.str w) ++ "."), ?_⟩
          unfold api_timeout_set
          rw [show truthy (PyVal.str w) = true by simp [truthy, hw]]
          rfl
      | httpRequestType t => exact ⟨_, rfl⟩
    · exact ⟨_, rfl⟩

/-- C2 witness: the amended theorem instantiated at the float 2 and the
integer 3. -/
theorem C2_witness :
    (api_timeout_set initAttrs (PyVal.float 2) =
        Except.ok { initAttrs with _api_timeout := some (PyVal.float 2) } ∧
      api_timeout_get { initAttrs with _api_timeout := some (PyVal.float 2) } =
        Except.ok (PyVal.float 2)) ∧
    (∃ e, api_timeout_set initAttrs (PyVal.int 3) = Except.error e) :=
  C2_api_timeout_amended initAttrs 2 (PyVal.int 3) (by decide)
    (Or.inl fun _ h => PyVal.noConfusion h)

/-- C3 counterexample: a freshly constructed client reads enableHttpTrace as
Python None, not the boolean False the claim names (the read is nonetheless
not rejected). -/
theorem C3_counterexample :
    netatmo_init emptyKwargs = Except.ok initAttrs ∧
    enable_http_trace_get initAttrs = Except.ok PyVal.none ∧
    enable_http_trace_get initAttrs ≠ Except.ok (PyVal.bool false) := by
  refine ⟨rfl, rfl, ?_⟩
  intro hcontra
  rw [show enable_http_trace_get initAttrs = Except.ok PyVal.none from rfl]
    at hcontra
  cases hcontra

/-- C3 (amended): on every client constructed without a truthy
enable_http_trace keyword, reading enableHttpTrace is not rejected as
absent: it returns Python None — a falsy value the request path treats as
false — rather than the boolean False. -/
theorem C3_trace_default_amended (k : Kwargs) (s : NetatmoWeatherStation)
    (hk : truthy (k.enable_http_trace.getD PyVal.none) = false)
    (h : netatmo_init k = Except.ok s) :
    enable_http_trace_get s = Except.ok PyVal.none ∧
      truthy PyVal.none = false := by
  refine ⟨?_, rfl⟩
  unfold enable_http_trace_get
  rw [netatmo_init_trace k s h hk]

/-- C3 witness: the amended theorem instantiated at the empty kwargs. -/
theorem C3_witness :
    enable_http_trace_get initAttrs = Except.ok PyVal.none ∧
      truthy PyVal.none = false :=
  C3_trace_default_amended emptyKwargs initAttrs (by decide) rfl

/-- C6: for every string urlsplit parses with both a scheme and a host, the
apiUrl setter succeeds, stores the original string unchanged, and the getter
then returns exactly that string. -/
theorem C6_api_url_roundtrip (s : NetatmoWeatherStation) (u : String)
    (p : SplitResult) (hp : urlsplit u = Except.ok p)
    (hs : p.scheme ≠ "") (hn : p.netloc ≠ "") :
    api_url_set s (PyVal.str u) =
      Except.ok { s with _api_url := some (PyVal.str u) } ∧
    api_url_get { s with _api_url := some (PyVal.str u) } =
      Except.ok (PyVal.str u) := by
  have hu : u ≠ "" := by
    intro he
    subst he
    rw [show urlsplit "" = Except.ok ⟨"", "", "", "", ""⟩ from rfl] at hp
    cases hp
    exact hs rfl
  refine ⟨?_, rfl⟩
  unfold api_url_set
  rw [show truthy (PyVal.str u) = true by simp [truthy, hu]]
  simp [hp, hs, hn]

/-- C6 witness: the round-trip at the URL string http://h. -/
theorem C6_witness :
    api_url_set initAttrs (PyVal.str "http://h") =
      Except.ok { initAttrs with _api_url := some (PyVal.str "http://h") } ∧
    api_url_get { initAttrs with _api_url := some (PyVal.str "http://h") } =
      Except.ok (PyVal.str "http://h") :=
  C6_api_url_roundtrip initAttrs "http://h" ⟨"http", "h", "", "", ""⟩ rfl
    (by decide) (by decide)

/-- C7: every string that is empty or does not parse into a URL with both
scheme and host is rejected by the apiUrl setter with a ValueError (the
functional setter yields no new state on error, so the stored field is
untouched); moreover every state a successful set produces holds a string
that parses with non-empty scheme and host — the claimed invariant. -/
theorem C7_api_url_rejects (s : NetatmoWeatherStation) (u : String)
    (h : u = "" ∨ (∃ e, urlsplit u = Except.error e) ∨
      (∃ p, urlsplit u = Except.ok p ∧ (p.scheme = "" ∨ p.netloc = ""))) :
    (∃ m, api_url_set s (PyVal.str u) = Except.error (PyError.valueError m)) ∧
    (∀ v s2, api_url_set s v = Except.ok s2 →
      ∃ w q, s2._api_url = some (PyVal.str w) ∧ urlsplit w = Except.ok q ∧
        q.scheme ≠ "" ∧ q.netloc ≠ "") := by
  constructor
  · rcases h with rfl | ⟨e, he⟩ | ⟨p, hp, hc⟩
    · exact ⟨"Empty value for api_url not allowed.", rfl⟩
    · by_cases hu : u = ""
      · subst hu
        rw [show urlsplit "" = Except.ok ⟨"", "", "", "", ""⟩ from rfl] at he
        cases he
      · refine ⟨"Given URL " ++ u ++ " is not valid", ?_⟩
        unfold api_url_set
        rw [show truthy (PyVal.str u) = true by simp [truthy, hu]]
        simp [he]
    · by_cases hu : u = ""
      · subst hu
        exact ⟨"Empty value for api_url not allowed.", rfl⟩
      · refine ⟨"Given URL " ++ u ++ " is not valid", ?_⟩
        unfold api_url_set
        rw [show truthy (PyVal.str u) = true by simp [truthy, hu]]
        rcases hc with h1 | h1 <;> simp [hp, h1]
  · intro v s2 hv
    obtain ⟨w, q, _, hq, hs1, hn1, rfl⟩ := api_url_set_ok s s2 v hv
    exact ⟨w, q, rfl, hq, hs1, hn1⟩

/-- C7 witness: the rejection at the non-URL string nope. -/
theorem C7_witness :
    ∃ m, api_url_set initAttrs (PyVal.str "nope") =
      Except.error (PyError.valueError m) :=
  (C7_api_url_rejects initAttrs "nope"
    (Or.inr (Or.inr ⟨⟨"", "", "nope", "", ""⟩, rfl, Or.inl rfl⟩))).1

/-- C8 counterexample: clearing api_url on a fresh client removes the
attribute, so the subsequent getter read raises AttributeError, while the
fresh never-set client's getter returns Python None — the two outcomes
differ, against the claim. -/
theorem C8_counterexample :
    netatmo_init emptyKwargs = Except.ok initAttrs ∧
    api_url_del initAttrs =
      Except.ok { initAttrs with _api_url := Option.none } ∧
    api_url_get { initAttrs with _api_url := Option.none } =
      Except.error (PyError.attributeError (noAttrMsg "_api_url")) ∧
    api_url_get initAttrs = Except.ok PyVal.none ∧
    api_url_get { initAttrs with _api_url := Option.none } ≠
      api_url_get initAttrs := by
  refine ⟨rfl, rfl, rfl, rfl, ?_⟩
  intro hcontra
  rw [show api_url_get { initAttrs with _api_url := Option.none } =
      Except.error (PyError.attributeError (noAttrMsg "_api_url")) from rfl,
    show api_url_get initAttrs = Except.ok PyVal.none from rfl] at hcontra
  cases hcontra

/-- C8 (amended): for every configuration field, clear deletes the
attribute, so a clear-then-get read raises a missing-attribute fault,
whereas a freshly constructed client's getter returns the Python None
sentinel without error; clear therefore does not reproduce the fresh
never-set state. -/
theorem C8_clear_vs_fresh :
    (∀ s s2, api_url_del s = Except.ok s2 →
      api_url_get s2 =
        Except.error (PyError.attributeError (noAttrMsg "_api_url"))) ∧
    (∀ s s2, api_timeout_del s = Except.ok s2 →
      api_timeout_get s2 =
        Except.error (PyError.attributeError (noAttrMsg "_api_timeout"))) ∧
    (∀ s s2, verify_ssl_del s = Except.ok s2 →
      verify_ssl_get s2 =
        Except.error (PyError.attributeError (noAttrMsg "_verify_ssl"))) ∧
    (∀ s s2, enable_debug_del s = Except.ok s2 →
      enable_debug_get s2 =
        Except.error (PyError.attributeError (noAttrMsg "_enable_http_debug"))) ∧
    (∀ s s2, enable_http_trace_del s = Except.ok s2 →
      enable_http_trace_get s2 =
        Except.error (PyError.attributeError (noAttrMsg "_enable_http_trace"))) ∧
    netatmo_init emptyKwargs = Except.ok initAttrs ∧
    api_url_get initAttrs = Except.ok PyVal.none ∧
    api_timeout_get initAttrs = Except.ok PyVal.none ∧
    verify_ssl_get initAttrs = Except.ok PyVal.none ∧
    enable_debug_get initAttrs = Except.ok PyVal.none ∧
    enable_http_trace_get initAttrs = Except.ok PyVal.none := by
  refine ⟨?_, ?_, ?_, ?_, ?_, rfl, rfl, rfl, rfl, rfl, rfl⟩
  · intro s s2 h
    unfold api_url_del at h
    split at h
    · cases h
      rfl
    · cases h
  · intro s s2 h
    unfold api_timeout_del at h
    split at h
    · cases h
      rfl
    · cases h
  · intro s s2 h
    unfold verify_ssl_del at h
    split at h
    · cases h
      rfl
    · cases h
  · intro s s2 h
    unfold enable_debug_del at h
    split at h
    · cases h
      rfl
    · cases h
  · intro s s2 h
    unfold enable_http_trace_del at h
    split at h
    · cases h
      rfl
    · cases h

/-- C8 witness: the amended theorem applied to a fresh client whose api_url
was cleared. -/
theorem C8_witness :
    api_url_get { initAttrs with _api_url := Option.none } =
      Except.error (PyError.attributeError (noAttrMsg "_api_url")) :=
  C8_clear_vs_fresh.1 initAttrs { initAttrs with _api_url := Option.none } rfl

/-- C9: a truthy api_timeout keyword is routed by the constructor through
the api_url setter (source line 158), never through the api_timeout setter;
in particular every truthy float value makes construction fail with the
api_url setter's TypeError, and on every successfully constructed client
the timeout attribute still holds the None reset. -/
theorem C9_timeout_misrouted (v : PyVal) (q : Rat)
    (hv : truthy v = true) (hq : q ≠ 0) :
    netatmo_init (timeoutKwargs v) = api_url_set initAttrs v ∧
    netatmo_init (timeoutKwargs (PyVal.float q)) =
      Except.error (PyError.typeError
        "Given value for api_url is not a string. Type of the value: float.") ∧
    (∀ k s, netatmo_init k = Except.ok s → s._api_timeout = some PyVal.none) := by
  refine ⟨init_timeout_routes v hv, ?_, ?_⟩
  · rw [init_timeout_routes (PyVal.float q) (by simp [truthy, hq])]
    unfold api_url_set
    rw [show truthy (PyVal.float q) = true by simp [truthy, hq]]
    rfl
  · intro k s h
    exact (netatmo_init_inv k s h).2.2.1

/-- C9 witness: the misrouting at the string x and the float 2. -/
theorem C9_witness :
    netatmo_init (timeoutKwargs (PyVal.str "x")) =
      api_url_set initAttrs (PyVal.str "x") ∧
    netatmo_init (timeoutKwargs (PyVal.float 2)) =
      Except.error (PyError.typeError
        "Given value for api_url is not a string. Type of the value: float.") :=
  ⟨(C9_timeout_misrouted (PyVal.str "x") 2 (by decide) (by decide)).1,
    (C9_timeout_misrouted (PyVal.str "x") 2 (by decide) (by decide)).2.1⟩

/-- C10: when every keyword supplied to the constructor is falsy, every
assignment is skipped: construction succeeds with all five attributes left
at the None reset and no error is raised — even for verify_ssl=False, a
value the verify_ssl setter itself accepts. -/
theorem C10_falsy_kwargs_skipped (k : Kwargs)
    (h1 : truthy (k.api_url.getD PyVal.none) = false)
    (h2 : truthy (k.api_timeout.getD PyVal.none) = false)
    (h3 : truthy (k.verify_ssl.getD PyVal.none) = false)
    (h4 : truthy (k.enable_http_trace.getD PyVal.none) = false)
    (h5 : truthy (k._enable_http_debug.getD PyVal.none) = false) :
    netatmo_init k = Except.ok initAttrs ∧
    verify_ssl_set initAttrs (PyVal.bool false) =
      Except.ok { initAttrs with _verify_ssl := some (PyVal.bool false) } := by
  refine ⟨?_, rfl⟩
  unfold netatmo_init
  rw [h1, h2, h3, h4, h5]
  simp [Except.bind]

/-- C10 witness: construction with verify_ssl=False supplied. -/
theorem C10_witness :
    netatmo_init
        ⟨Option.none, Option.none, some (PyVal.bool false), Option.none,
          Option.none⟩ =
      Except.ok initAttrs ∧
    verify_ssl_set initAttrs (PyVal.bool false) =
      Except.ok { initAttrs with _verify_ssl := some (PyVal.bool false) } :=
  C10_falsy_kwargs_skipped _ (by decide) (by decide) (by decide) (by decide)
    (by decide)

/-- C1 counterexample: on a client constructed with only a truthy
_enable_http_debug keyword, a queryApi call whose arguments pass validation
raises a TypeError (from the None + str URL concatenation inside the debug
log f-string), not the undefined-attribute fault on the credentials the
claim asserts; no HTTP request is issued either way. -/
theorem C1_counterexample :
    netatmo_init dbgKwargs = Except.ok dbgStation ∧
    dbgStation.api_username = Option.none ∧
    dbgStation.api_password = Option.none ∧
    query_api dbgStation nullTransport
        (PyVal.httpRequestType HttpRequestType.GET) (PyVal.str "a")
        PyVal.none =
      ([], Except.error (PyError.typeError
        "unsupported operand types for +: NoneType and str")) ∧
    PyError.typeError "unsupported operand types for +: NoneType and str" ≠
      PyError.attributeError (noAttrMsg "api_username") := by
  refine ⟨rfl, rfl, rfl, rfl, ?_⟩
  intro hcontra
  cases hcontra

/-- C1 (amended): on every successfully constructed client (credentials
never assigned) and every queryApi invocation passing argument validation,
an error is raised before any HTTP request reaches the transport; it is the
undefined-attribute fault at the api_username read whenever debug logging is
off or apiUrl holds a string — with debug logging on while apiUrl is unset,
a TypeError from the URL concatenation in the log precedes it instead. -/
theorem C1_credentials_fault_amended (k : Kwargs) (s : NetatmoWeatherStation)
    (tr : Transport) (t : HttpRequestType) (l : String) (d : PyVal)
    (hinit : netatmo_init k = Except.ok s)
    (hl : l ≠ "")
    (hd : d = PyVal.none ∨ ∃ ds, d = PyVal.str ds ∧ _is_json ds = true)
    (hok : truthy (s._enable_http_debug.getD PyVal.none) = false ∨
      ∃ u, s._api_url = some (PyVal.str u)) :
    query_api s tr (PyVal.httpRequestType t) (PyVal.str l) d =
      ([], Except.error (PyError.attributeError (noAttrMsg "api_username"))) := by
  obtain ⟨hun, _, _, _, _, _, hdbg⟩ := netatmo_init_inv k s hinit
  obtain ⟨dv, hdv⟩ := Option.isSome_iff_exists.mp hdbg
  have hok2 : truthy dv = false ∨ ∃ u, s._api_url = some (PyVal.str u) := by
    rcases hok with hf | hu
    · left
      rw [hdv] at hf
      simpa using hf
    · right
      exact hu
  have key : ∀ dd, query_dispatch s tr t l dd =
      ([], Except.error (PyError.attributeError (noAttrMsg "api_username"))) :=
    fun dd => query_dispatch_noauth s tr t l dd dv hun hdv hok2
  rcases hd with rfl | ⟨ds, rfl, hj⟩
  · rw [show query_api s tr (PyVal.httpRequestType t) (PyVal.str l)
        PyVal.none = query_dispatch s tr t l Option.none from by
      simp [query_api, truthy, hl]]
    exact key _
  · rw [show query_api s tr (PyVal.httpRequestType t) (PyVal.str l)
        (PyVal.str ds) = query_dispatch s tr t l (some ds) from by
      simp [query_api, truthy, hl, hj]]
    exact key _

/-- C1 witness: the amended theorem on the fresh client. -/
theorem C1_witness :
    query_api initAttrs nullTransport
        (PyVal.httpRequestType HttpRequestType.GET) (PyVal.str "a")
        PyVal.none =
      ([], Except.error (PyError.attributeError (noAttrMsg "api_username"))) :=
  C1_credentials_fault_amended emptyKwargs initAttrs nullTransport
    HttpRequestType.GET "a" PyVal.none rfl (by decide) (Or.inl rfl)
    (Or.inl (by decide))

/-- C4: queryApi validates method presence, method type, location presence,
location type, then body type and body JSON-validity — in that order, each
failure raising at once with the message naming the offending parameter —
and nothing is handed to the transport unless every check passes. -/
theorem C4_validation_order (s : NetatmoWeatherStation) (tr : Transport)
    (m loc d : PyVal) :
    (truthy m = false →
      query_api s tr m loc d = ([], Except.error (PyError.valueError
        "Given value for the first argument (http_request_type) is empty (or None)."))) ∧
    (truthy m = true → (∀ t, m ≠ PyVal.httpRequestType t) →
      query_api s tr m loc d = ([], Except.error (PyError.typeError
        ("Given value for the first argument (http_request_type) is not an instance of HttpRequestType. Type of value is "
          ++ pyTypeName m ++ ".")))) ∧
    (∀ t, m = PyVal.httpRequestType t → truthy loc = false →
      query_api s tr m loc d = ([], Except.error (PyError.valueError
        "Given value for the second argument (location) is empty (or None)."))) ∧
    (∀ t, m = PyVal.httpRequestType t → truthy loc = true →
      (∀ l, loc ≠ PyVal.str l) →
      query_api s tr m loc d = ([], Except.error (PyError.typeError
        ("Given value for the second argument (location) is not a string. Type of value is "
          ++ pyTypeName loc ++ ".")))) ∧
    (∀ t l, m = PyVal.httpRequestType t → loc = PyVal.str l → l ≠ "" →
      d ≠ PyVal.none → (∀ ds, d ≠ PyVal.str ds) →
      query_api s tr m loc d = ([], Except.error (PyError.typeError
        ("Given value for the third argument (data) is not a string. Type of value is "
          ++ pyTypeName d ++ ".")))) ∧
    (∀ t l ds, m = PyVal.httpRequestType t → loc = PyVal.str l → l ≠ "" →
      d = PyVal.str ds → _is_json ds = false →
      query_api s tr m loc d = ([], Except.error (PyError.valueError
        ("Given value for the fifth argument (data) is not a JSON formatted string. Following the given value: "
          ++ ds)))) ∧
    ((query_api s tr m loc d).1 ≠ [] →
      ∃ t l, m = PyVal.httpRequestType t ∧ loc = PyVal.str l ∧ l ≠ "" ∧
        (d = PyVal.none ∨ ∃ ds, d = PyVal.str ds ∧ _is_json ds = true)) := by
  have g1 : truthy m = false →
      query_api s tr m loc d = ([], Except.error (PyError.valueError
        "Given value for the first argument (http_request_type) is empty (or None).")) := by
    intro hm
    unfold query_api
    rw [hm]
    rfl
  have g2 : truthy m = true → (∀ t, m ≠ PyVal.httpRequestType t) →
      query_api s tr m loc d = ([], Except.error (PyError.typeError
        ("Given value for the first argument (http_request_type) is not an instance of HttpRequestType. Type of value is "
          ++ pyTypeName m ++ "."))) := by
    intro hm hne
    cases m with
    | none => simp [truthy] at hm
    | httpRequestType t => exact absurd rfl (hne t)
    | bool b =>
      unfold query_api
      rw [hm]
      rfl
    | int n =>
      unfold query_api
      rw [hm]
      rfl
    | float qq =>
      unfold query_api
      rw [hm]
      rfl
    | str w =>
      unfold query_api
      rw [hm]
      rfl
  have g3 : ∀ t, m = PyVal.httpRequestType t → truthy loc = false →
      query_api s tr m loc d = ([], Except.error (PyError.valueError
        "Given value for the second argument (location) is empty (or None).")) := by
    intro t hm hloc
    subst hm
    unfold query_api
    rw [hloc]
    rfl
  have g4 : ∀ t, m = PyVal.httpRequestType t → truthy loc = true →
      (∀ l, loc ≠ PyVal.str l) →
      query_api s tr m loc d = ([], Except.error (PyError.typeError
        ("Given value for the second argument (location) is not a string. Type of value is "
          ++ pyTypeName loc ++ "."))) := by
    intro t hm hloc hne
    subst hm
    cases loc with
    | none => simp [truthy] at hloc
    | str l => exact absurd rfl (hne l)
    | bool b =>
      unfold query_api
      rw [hloc]
      rfl
    | int n =>
      unfold query_api
      rw [hloc]
      rfl
    | float qq =>
      unfold query_api
      rw [hloc]
      rfl
    | httpRequestType t2 =>
      unfold query_api
      rw [hloc]
      rfl
  have g5 : ∀ t l, m = PyVal.httpRequestType t → loc = PyVal.str l → l ≠ "" →
      d ≠ PyVal.none → (∀ ds, d ≠ PyVal.str ds) →
      query_api s tr m loc d = ([], Except.error (PyError.typeError
        ("Given value for the third argument (data) is not a string. Type of value is "
          ++ pyTypeName d ++ "."))) := by
    intro t l hm hlc hl hdn hds
    subst hm
    subst hlc
    cases d with
    | none => exact absurd rfl hdn
    | str ds => exact absurd rfl (hds ds)
    | bool b =>
      unfold query_api
      rw [show truthy (PyVal.str l) = true by simp [truthy, hl]]
      rfl
    | int n =>
      unfold query_api
      rw [show truthy (PyVal.str l) = true by simp [truthy, hl]]
      rfl
    | float qq =>
      unfold query_api
      rw [show truthy (PyVal.str l) = true by simp [truthy, hl]]
      rfl
    | httpRequestType t2 =>
      unfold query_api
      rw [show truthy (PyVal.str l) = true by simp [truthy, hl]]
      rfl
  have g6 : ∀ t l ds, m = PyVal.httpRequestType t → loc = PyVal.str l →
      l ≠ "" → d = PyVal.str ds → _is_json ds = false →
      query_api s tr m loc d = ([], Except.error (PyError.valueError
        ("Given value for the fifth argument (data) is not a JSON formatted string. Following the given value: "
          ++ ds))) := by
    intro t l ds hm hlc hl hdd hj
    subst hm
    subst hlc
    subst hdd
    simp [query_api, show truthy (PyVal.httpRequestType t) = true from rfl,
      show truthy (PyVal.str l) = true by simp [truthy, hl], hj]
  refine ⟨g1, g2, g3, g4, g5, g6, ?_⟩
  intro hnet
  cases m with
  | httpRequestType t =>
    cases loc with
    | str l =>
      by_cases hl : l = ""
      · subst hl
        rw [g3 t rfl (by decide)] at hnet
        exact absurd rfl hnet
      · cases d with
        | none => exact ⟨t, l, rfl, rfl, hl, Or.inl rfl⟩
        | str ds =>
          cases hj : _is_json ds with
          | true => exact ⟨t, l, rfl, rfl, hl, Or.inr ⟨ds, rfl, hj⟩⟩
          | false =>
            rw [g6 t l ds rfl rfl hl rfl hj] at hnet
            exact absurd rfl hnet
        | bool b =>
          rw [g5 t l rfl rfl hl (fun h => PyVal.noConfusion h)
            (fun ds h => PyVal.noConfusion h)] at hnet
          exact absurd rfl hnet
        | int n =>
          rw [g5 t l rfl rfl hl (fun h => PyVal.noConfusion h)
            (fun ds h => PyVal.noConfusion h)] at hnet
          exact absurd rfl hnet
        | float qq =>
          rw [g5 t l rfl rfl hl (fun h => PyVal.noConfusion h)
            (fun ds h => PyVal.noConfusion h)] at hnet
          exact absurd rfl hnet
        | httpRequestType t2 =>
          rw [g5 t l rfl rfl hl (fun h => PyVal.noConfusion h)
            (fun ds h => PyVal.noConfusion h)] at hnet
          exact absurd rfl hnet
    | none =>
      rw [g3 t rfl rfl] at hnet
      exact absurd rfl hnet
    | bool b =>
      cases b with
      | false =>
        rw [g3 t rfl rfl] at hnet
        exact absurd rfl hnet
      | true =>
        rw [g4 t rfl rfl (fun l h => PyVal.noConfusion h)] at hnet
        exact absurd rfl hnet
    | int n =>
      by_cases hn : n = 0
      · subst hn
        rw [g3 t rfl (by decide)] at hnet
        exact absurd rfl hnet
      · rw [g4 t rfl (by simp [truthy, hn])
          (fun l h => PyVal.noConfusion h)] at hnet
        exact absurd rfl hnet
    | float qq =>
      by_cases hq : qq = 0
      · subst hq
        rw [g3 t rfl (by decide)] at hnet
        exact absurd rfl hnet
      · rw [g4 t rfl (by simp [truthy, hq])
          (fun l h => PyVal.noConfusion h)] at hnet
        exact absurd rfl hnet
    | httpRequestType t2 =>
      rw [g4 t rfl rfl (fun l h => PyVal.noConfusion h)] at hnet
      exact absurd rfl hnet
  | none =>
    rw [g1 rfl] at hnet
    exact absurd rfl hnet
  | bool b =>
    cases b with
    | false =>
      rw [g1 rfl] at hnet
      exact absurd rfl hnet
    | true =>
      rw [g2 rfl (fun t h => PyVal.noConfusion h)] at hnet
      exact absurd rfl hnet
  | int n =>
    by_cases hn : n = 0
    · subst hn
      rw [g1 (by decide)] at hnet
      exact absurd rfl hnet
    · rw [g2 (by simp [truthy, hn]) (fun t h => PyVal.noConfusion h)] at hnet
      exact absurd rfl hnet
  | float qq =>
    by_cases hq : qq = 0
    · subst hq
      rw [g1 (by decide)] at hnet
      exact absurd rfl hnet
    · rw [g2 (by simp [truthy, hq]) (fun t h => PyVal.noConfusion h)] at hnet
      exact absurd rfl hnet
  | str w =>
    by_cases hw : w = ""
    · subst hw
      rw [g1 (by decide)] at hnet
      exact absurd rfl hnet
    · rw [g2 (by simp [truthy, hw]) (fun t h => PyVal.noConfusion h)] at hnet
      exact absurd rfl hnet

/-- C4 witness: a method outside the enumeration and a non-JSON body each
fail locally with an empty transport log. -/
theorem C4_witness :
    query_api initAttrs nullTransport (PyVal.str "PATCH") (PyVal.str "a")
        PyVal.none =
      ([], Except.error (PyError.typeError
        ("Given value for the first argument (http_request_type) is not an instance of HttpRequestType. Type of value is "
          ++ pyTypeName (PyVal.str "PATCH") ++ "."))) ∧
    query_api initAttrs nullTransport
        (PyVal.httpRequestType HttpRequestType.GET) (PyVal.str "a")
        (PyVal.str "nope") =
      ([], Except.error (PyError.valueError
        ("Given value for the fifth argument (data) is not a JSON formatted string. Following the given value: "
          ++ "nope"))) :=
  ⟨(C4_validation_order initAttrs nullTransport (PyVal.str "PATCH")
      (PyVal.str "a") PyVal.none).2.1 (by decide)
      (fun t h => PyVal.noConfusion h),
    (C4_validation_order initAttrs nullTransport
      (PyVal.httpRequestType HttpRequestType.GET) (PyVal.str "a")
      (PyVal.str "nope")).2.2.2.2.2.1 HttpRequestType.GET "a" "nope" rfl rfl
      (by decide) rfl (by decide)⟩

/-- C5 counterexample: a 304 response has a non-2xx status, yet queryApi
returns the parsed body instead of raising an HttpError — the underlying
library raises only for status codes 400-599. -/
theorem C5_counterexample :
    query_api credStation (constTransport ⟨304, "Not Modified", "1"⟩)
        (PyVal.httpRequestType HttpRequestType.GET) (PyVal.str "a")
        PyVal.none =
      ([(HttpRequestType.GET, "http://h/" ++ "a")],
        Except.ok (JsonVal.num "1")) ∧
    ¬(200 ≤ 304 ∧ 304 < 300) :=
  ⟨rfl, by omega⟩

/-- C5 (amended): for every queryApi call that reaches the transport and
gets back a response whose body parses as JSON, the call raises an HttpError
whose message contains the status code exactly when the final status is in
400-599 (so 404 in particular), and returns the body parsed as JSON for
every other status — including non-2xx statuses below 400, which the claim
as stated would require to raise. -/
theorem C5_status_handling (s : NetatmoWeatherStation) (t : HttpRequestType)
    (l u : String) (un pw vs tm dbg trv : PyVal) (r : HttpResponse)
    (j : JsonVal)
    (hl : l ≠ "")
    (hurl : s._api_url = some (PyVal.str u))
    (hvs : s._verify_ssl = some vs)
    (htm : s._api_timeout = some tm)
    (hdbg : s._enable_http_debug = some dbg)
    (htrv : s._enable_http_trace = some trv)
    (hun : s.api_username = some un)
    (hpw : s.api_password = some pw)
    (hbody : json_loads r.body = some j) :
    (400 ≤ r.status_code → r.status_code < 600 →
      ∃ msg, query_api s (constTransport r) (PyVal.httpRequestType t)
          (PyVal.str l) PyVal.none =
        ([(t, u ++ l)], Except.error (PyError.httpError msg)) ∧
        strContains msg (toString r.status_code) = true) ∧
    ((r.status_code < 400 ∨ 600 ≤ r.status_code) →
      query_api s (constTransport r) (PyVal.httpRequestType t)
          (PyVal.str l) PyVal.none = ([(t, u ++ l)], Except.ok j)) := by
  have hls : truthy (PyVal.str l) = true := by simp [truthy, hl]
  have hstep : query_api s (constTransport r) (PyVal.httpRequestType t)
      (PyVal.str l) PyVal.none =
      ([(t, u ++ l)], query_handle_response s t (u ++ l) r) := by
    cases hdb : truthy dbg <;>
      simp [query_api, show truthy (PyVal.httpRequestType t) = true from rfl,
        hls, query_dispatch, hdbg, hdb, hurl, query_auth, hun, hpw,
        query_request, hvs, htm, constTransport]
  have hhr : query_handle_response s t (u ++ l) r =
      query_status t (u ++ l) r := by
    unfold query_handle_response
    rw [htrv]
    cases htv : truthy trv
    · simp [htv]
    · simp [htv, response_json, hbody]
  constructor
  · intro h4 h6
    by_cases h5 : r.status_code < 500
    · refine ⟨"The HTTP " ++ methodName t
          ++ " request failed with an HTTPError. Following the complete error: "
          ++ (toString r.status_code ++ " Client Error: " ++ r.reason
            ++ " for url: " ++ (u ++ l)), ?_, ?_⟩
      · rw [hstep, hhr]
        unfold query_status
        rw [show raise_for_status r (u ++ l) = some (toString r.status_code
            ++ " Client Error: " ++ r.reason ++ " for url: " ++ (u ++ l))
          from by
            unfold raise_for_status
            rw [if_pos ⟨h4, h5⟩]]
      · unfold strContains
        simp only [strData_append, List.append_assoc]
        apply listFindSub_append_left
        apply listFindSub_append_left
        apply listFindSub_append_left
        exact listFindSub_self_append _ _
    · have h5a : 500 ≤ r.status_code := by omega
      refine ⟨"The HTTP " ++ methodName t
          ++ " request failed with an HTTPError. Following the complete error: "
          ++ (toString r.status_code ++ " Server Error: " ++ r.reason
            ++ " for url: " ++ (u ++ l)), ?_, ?_⟩
      · rw [hstep, hhr]
        unfold query_status
        rw [show raise_for_status r (u ++ l) = some (toString r.status_code
            ++ " Server Error: " ++ r.reason ++ " for url: " ++ (u ++ l))
          from by
            unfold raise_for_status
            rw [if_neg (by omega), if_pos ⟨h5a, h6⟩]]
      · unfold strContains
        simp only [strData_append, List.append_assoc]
        apply listFindSub_append_left
        apply listFindSub_append_left
        apply listFindSub_append_left
        exact listFindSub_self_append _ _
  · intro hrange
    have hrfs : raise_for_status r (u ++ l) = Option.none := by
      unfold raise_for_status
      rcases hrange with hlt | hge
      · rw [if_neg (by omega), if_neg (by omega)]
      · rw [if_neg (by omega), if_neg (by omega)]
    rw [hstep, hhr]
    unfold query_status
    rw [hrfs]
    simp [response_ok, hrfs, response_json, hbody]

/-- C5 witness: the amended theorem at a 404 response against a client with
caller-assigned credentials. -/
theorem C5_witness :
    ∃ msg, query_api credStation (constTransport ⟨404, "NF", "1"⟩)
        (PyVal.httpRequestType HttpRequestType.GET) (PyVal.str "a")
        PyVal.none =
      ([(HttpRequestType.GET, "http://h/" ++ "a")],
        Except.error (PyError.httpError msg)) ∧
      strContains msg (toString (404 : Nat)) = true :=
  (C5_status_handling credStation HttpRequestType.GET "a" "http://h/"
    (PyVal.str "u") (PyVal.str "p") PyVal.none PyVal.none PyVal.none
    PyVal.none ⟨404, "NF", "1"⟩ (JsonVal.num "1") (by decide) rfl rfl rfl rfl
    rfl rfl rfl rfl).1 (by decide) (by decide)

end NetatmoWS
